import Mathlib

/-!
Verification development for the django-boosted repository.

The repository contains two parallel admin-extension packages,
django_admin_boost and django_boosted.  The definitions below are a
shallow embedding of the permission checking, view generation, URL
registration and configuration-bag code of both packages.  Django
framework objects (requests, model instances, HTTP responses) are
represented abstractly: a model instance is a Nat identifier, the
per-request permission results of a ModelAdmin are Boolean-valued
fields, and Python dictionaries are association lists over a small
value type.  Each definition is translated from the named source
function; Python truthiness of optional strings (None or empty) is
modelled with Option, where none covers every falsy value.
-/

/-- Values stored in template contexts and in the mappings returned by
handler functions. -/
inductive Val
  | s (x : String)
  | n (x : Int)
  | b (x : Bool)
  | strs (xs : List String)
deriving DecidableEq, Repr

/-- State of a ModelAdmin instance for one fixed request: the object
lookup performed by get_object and the results of the has_*_permission
methods on that request (each taking the optional object argument).
Mirrors the ModelAdmin surface used by decorators.py and by the
ViewGenerator classes of both packages. -/
structure ModelAdmin where
  getObject : String → Option Nat
  hasViewPermission : Option Nat → Bool
  hasChangePermission : Option Nat → Bool
  hasDeletePermission : Option Nat → Bool
  hasAddPermission : Bool
  hasViewOrChangePermission : Option Nat → Bool
  buildBaseContext : Option Nat → List (String × Val)
  appLabel : String
  modelName : String

/-! ## Class-body resolution (Python semantics)

A Python class body is a sequence of bindings executed in order; a
later def of the same name replaces the earlier one.  Used for claim
C10 about the duplicated AdminBoostModel.__init__ in
django_admin_boost/admin/model.py. -/

/-- Resolve a name against an in-order list of class-body bindings:
the last binding of the name wins, as in a Python class body. -/
def resolveClassAttr {α : Type} (defs : List (String × α)) (name : String) : Option α :=
  defs.foldl (fun acc d => if d.fst = name then some d.snd else acc) none

/-- Observable actions a ModelAdmin __init__ body can perform, at the
granularity needed to compare the two __init__ definitions of
django_admin_boost.AdminBoostModel. -/
inductive InitAction
  | deepCopyFieldsets
  | callChangeFieldsets
  | callSuperInit
  | setupBoostViews
deriving DecidableEq, Repr

/-- Action trace of the first AdminBoostModel.__init__ definition
(django_admin_boost/admin/model.py lines 32-35): call the
change_fieldsets hook when the class has one, then the superclass
constructor.  It never deep-copies fieldsets. -/
def admin_boost_init_v1 (hasChangeFieldsets : Bool) : List InitAction :=
  (if hasChangeFieldsets then [InitAction.callChangeFieldsets] else []) ++
    [InitAction.callSuperInit]

/-- Action trace of the second AdminBoostModel.__init__ definition
(django_admin_boost/admin/model.py lines 110-166): call the
superclass constructor, then scan class attributes and install the
generated boost views.  The hasChangeFieldsets flag is ignored. -/
def admin_boost_init_v2 (_hasChangeFieldsets : Bool) : List InitAction :=
  [InitAction.callSuperInit, InitAction.setupBoostViews]

/-- The two __init__ bindings of the AdminBoostModel class body of
django_admin_boost, in source order: the definition at line 32 comes
first, the definition at line 110 second. -/
def adminBoostModelInitDefs : List (String × (Bool → List InitAction)) :=
  [("__init__", admin_boost_init_v1), ("__init__", admin_boost_init_v2)]

/-- The __init__ actually bound on the finished class, with a trace
that is empty if the class had no __init__ binding at all. -/
def adminBoostModelInit (hasChangeFieldsets : Bool) : List InitAction :=
  match resolveClassAttr adminBoostModelInitDefs "__init__" with
  | some f => f hasChangeFieldsets
  | none => []

/-! ## has_change_permission override (django_boosted, claim C4) -/

/-- Embedding of django_boosted AdminBoostModel.has_change_permission
(admin/model.py lines 91-95): getattr(self, "changeform_actions",
None) is truthy exactly when the attribute exists and is a non-empty
mapping; in that case the method returns True, otherwise it defers to
the superclass result. -/
def has_change_permission (changeformActions : Option (List (String × String)))
    (superResult : Bool) : Bool :=
  match changeformActions with
  | some actions => if actions.isEmpty then superResult else true
  | none => superResult

/-! ## Permission checking

django_admin_boost/decorators.py dispatches on the configured
permission string; the ViewGenerator._check_permissions method shared
by both packages (django_admin_boost/admin/views.py lines 18-31 and
django_boosted/admin/views/base.py lines 29-41, which are identical)
always checks has_view_permission. -/

/-- Embedding of _resolve_permission_checker
(django_admin_boost/decorators.py lines 26-36): returns the result of
the checker closure applied to (admin_instance, request, obj). -/
def resolve_permission_checker (permission : String) (adm : ModelAdmin)
    (obj : Option Nat) : Bool :=
  if permission = "change" then adm.hasChangePermission obj
  else if permission = "delete" then adm.hasDeletePermission obj
  else if permission = "add" then adm.hasAddPermission
  else adm.hasViewOrChangePermission obj

/-- Result of ViewGenerator._check_permissions: the object-not-found
redirect, the PermissionDenied exception, or success carrying the
looked-up object (none when no object_id was given). -/
inductive CheckResult
  | notFoundRedirect
  | permissionDenied
  | ok (obj : Option Nat)
deriving DecidableEq, Repr

/-- Embedding of ViewGenerator._check_permissions
(django_boosted/admin/views/base.py lines 29-41, identical in
django_admin_boost/admin/views.py lines 18-31).  objectId = none
models a falsy object_id (None or the empty string).  Note that the
configured permission string plays no part: the method always calls
has_view_permission. -/
def check_permissions (adm : ModelAdmin) (objectId : Option String) : CheckResult :=
  match objectId with
  | some oid =>
    match adm.getObject oid with
    | none => CheckResult.notFoundRedirect
    | some obj =>
      if adm.hasViewPermission (some obj) then CheckResult.ok (some obj)
      else CheckResult.permissionDenied
  | none =>
    if adm.hasViewPermission none then CheckResult.ok none
    else CheckResult.permissionDenied

/-! ## Dictionaries

Template contexts and handler payload mappings are Python dicts,
modelled as association lists whose lookup finds the first entry for a
key.  dictIns and dictUpdate mirror item assignment and dict.update:
an existing key keeps its position and receives the new value, new
keys are appended in order. -/

/-- Python dict lookup: the value of the first entry carrying the key. -/
def dictGet : List (String × Val) → String → Option Val
  | [], _ => none
  | kv :: rest, k => if kv.fst = k then some kv.snd else dictGet rest k

/-- Python key-membership test (k in d). -/
def dictHasKey : List (String × Val) → String → Bool
  | [], _ => false
  | kv :: rest, k => kv.fst = k || dictHasKey rest k

/-- Python dict item assignment d[k] = v: replace the value in place
when the key exists, append otherwise. -/
def dictIns (d : List (String × Val)) (k : String) (v : Val) : List (String × Val) :=
  if dictHasKey d k then
    d.map (fun kv => if kv.fst = k then (k, v) else kv)
  else d ++ [(k, v)]

/-- Python dict.update(base, upd): keys of upd override the values in
base, keys missing from base are appended in upd order. -/
def dictUpdate (base upd : List (String × Val)) : List (String × Val) :=
  (base.map fun kv =>
    match dictGet upd kv.fst with
    | some v => (kv.fst, v)
    | none => kv) ++
  upd.filter (fun u => ! dictHasKey base u.fst)

/-! ## View wrappers -/

/-- Value returned by a handler function: an HttpResponse (identified
by a number), a mapping, or None.  A mapping is truthy in Python
exactly when it is non-empty; None is falsy. -/
inductive Payload
  | http (r : Nat)
  | mapping (m : List (String × Val))
  | nonePayload
deriving DecidableEq, Repr

/-- Observable outcome of one invocation of a generated view wrapper. -/
inductive ViewResult
  | redirectNotFound
  | permissionDenied
  | response (r : Nat)
  | template (name : String) (ctx : List (String × Val))
  | jsonResponse (p : Payload) (safe : Bool)
  | redirectTo (url : String)
  | pyError (kind : String)
deriving DecidableEq, Repr

/-- One wrapper invocation together with the record of whether the
wrapped handler function was actually called. -/
structure ViewRun where
  result : ViewResult
  handlerCalled : Bool
deriving DecidableEq, Repr

/-- The ViewConfig dataclass of django_boosted/admin/views/base.py
lines 15-22, with its field defaults. -/
structure ViewConfig where
  template_name : String
  requires_object : Bool := false
  permission : String := "view"
  path_fragment : Option String := none
deriving DecidableEq, Repr

/-- Embedding of the requires_object branch of ViewGenerator._create_view
(django_boosted/admin/views/base.py lines 91-108): check permissions
for the given object_id, build the base context plus a title entry,
call the handler with the looked-up object, return an HttpResponse
payload unchanged, merge a truthy mapping payload into the context,
and render the template named by the config.  The permission field of
the config is never consulted. -/
def create_view_object (adm : ModelAdmin) (cfg : ViewConfig) (label : String)
    (handler : Option Nat → Payload) (objectId : Option String) : ViewRun :=
  match check_permissions adm objectId with
  | CheckResult.notFoundRedirect => ⟨ViewResult.redirectNotFound, false⟩
  | CheckResult.permissionDenied => ⟨ViewResult.permissionDenied, false⟩
  | CheckResult.ok obj =>
    let context := dictIns (adm.buildBaseContext obj) "title" (Val.s label)
    match handler obj with
    | Payload.http r => ⟨ViewResult.response r, true⟩
    | Payload.mapping m =>
      ⟨ViewResult.template cfg.template_name
        (if m.isEmpty then context else dictUpdate context m), true⟩
    | Payload.nonePayload => ⟨ViewResult.template cfg.template_name context, true⟩

/-- Embedding of the plain branch of ViewGenerator._create_view
(django_boosted/admin/views/base.py lines 110-126): same as the
object branch but the permission check runs with object_id None and
the handler receives no object. -/
def create_view_noobject (adm : ModelAdmin) (cfg : ViewConfig) (label : String)
    (handler : Payload) : ViewRun :=
  match check_permissions adm none with
  | CheckResult.notFoundRedirect => ⟨ViewResult.redirectNotFound, false⟩
  | CheckResult.permissionDenied => ⟨ViewResult.permissionDenied, false⟩
  | CheckResult.ok obj =>
    let context := dictIns (adm.buildBaseContext obj) "title" (Val.s label)
    match handler with
    | Payload.http r => ⟨ViewResult.response r, true⟩
    | Payload.mapping m =>
      ⟨ViewResult.template cfg.template_name
        (if m.isEmpty then context else dictUpdate context m), true⟩
    | Payload.nonePayload => ⟨ViewResult.template cfg.template_name context, true⟩

/-- Embedding of the wrapper built by
JsonViewMixin.generate_admin_custom_json_view
(django_boosted/admin/views/json.py lines 26-49): after the
permission check, an HttpResponse payload is returned unchanged and
any other payload is wrapped in JsonResponse(payload, safe=False). -/
def json_view (adm : ModelAdmin) (requiresObject : Bool)
    (handler : Option Nat → Payload) (objectId : Option String) : ViewRun :=
  match check_permissions adm (if requiresObject then objectId else none) with
  | CheckResult.notFoundRedirect => ⟨ViewResult.redirectNotFound, false⟩
  | CheckResult.permissionDenied => ⟨ViewResult.permissionDenied, false⟩
  | CheckResult.ok obj =>
    match (if requiresObject then handler obj else handler none) with
    | Payload.http r => ⟨ViewResult.response r, true⟩
    | p => ⟨ViewResult.jsonResponse p false, true⟩

/-- Phase reached by the wrapper of admin_boost_object_view
(django_admin_boost/decorators.py lines 174-259) before any handler
invocation: the object-does-not-exist redirect, the PermissionDenied
exception raised after the failed permission check, or entry into the
handler-invoking body with the looked-up object.  Every call of the
wrapped view function in the source occurs textually after the two
early exits, inside the handlerPhase. -/
inductive ObjectViewPhase
  | notFoundRedirect
  | permissionDenied
  | handlerPhase (obj : Nat)
deriving DecidableEq, Repr

/-- Embedding of the entry control flow of the wrapper produced by
admin_boost_object_view (django_admin_boost/decorators.py lines
175-184): look up the object, return the object-does-not-exist
redirect when it is missing, raise PermissionDenied when the resolved
permission checker refuses, and otherwise proceed to the body that
calls the wrapped view function. -/
def admin_boost_object_view_phase (permission : String) (adm : ModelAdmin)
    (objectId : String) : ObjectViewPhase :=
  match adm.getObject objectId with
  | none => ObjectViewPhase.notFoundRedirect
  | some obj =>
    if resolve_permission_checker permission adm (some obj) then
      ObjectViewPhase.handlerPhase obj
    else ObjectViewPhase.permissionDenied

/-! ## Configuration bags attached by the django_boosted generators

Every public generate_admin_custom_<type>_view method of the
django_boosted ViewGenerator attaches an _admin_boost_config dict to
the wrapper it returns.  The bag-building code of each generator is
embedded below; a path_fragment argument of none models a falsy value
(None or the empty string), for which the Python expression
path_fragment or view_func.__name__.replace("_", "-") falls back to
the handler name with underscores replaced by hyphens. -/

/-- The _admin_boost_config attribute bag attached to a generated
wrapper, with the keys every public django_boosted generator sets. -/
structure AdminBoostConfigBag where
  label : String
  path_fragment : String
  permission : String
  view_type : String
  requires_object : Bool
  show_in_object_tools : Bool
deriving DecidableEq, Repr

/-- Python str.replace("_", "-"): with a one-character pattern this is
a map over the characters of the string. -/
def replace_underscores (s : String) : String :=
  String.mk (s.data.map fun c => if c = '_' then '-' else c)

/-- Python str.startswith("_"): the first character is an underscore. -/
def starts_with_underscore (s : String) : Bool :=
  match s.data with
  | [] => false
  | c :: _ => c = '_'

/-- Default path fragment: view_func.__name__.replace("_", "-"). -/
def defaultFragment (funcName : String) : String :=
  replace_underscores funcName

/-- Bag attached by JsonViewMixin.generate_admin_custom_json_view
(django_boosted/admin/views/json.py lines 51-59). -/
def json_view_config (funcName label : String)
    (path_fragment : Option String := none) (requires_object : Bool := false)
    (permission : String := "view") : AdminBoostConfigBag :=
  { label := label
    path_fragment := path_fragment.getD (defaultFragment funcName)
    permission := permission
    view_type := "json"
    requires_object := requires_object
    show_in_object_tools := true }

/-- Bag attached by ConfirmViewMixin.generate_admin_custom_confirm_view
(django_boosted/admin/views/confirm.py lines 91-99). -/
def confirm_view_config (funcName label : String)
    (path_fragment : Option String := none) (requires_object : Bool := false)
    (permission : String := "view") : AdminBoostConfigBag :=
  { label := label
    path_fragment := path_fragment.getD (defaultFragment funcName)
    permission := permission
    view_type := "confirm"
    requires_object := requires_object
    show_in_object_tools := true }

/-- Bag attached by ListViewMixin.generate_admin_custom_list_view
(django_boosted/admin/views/list.py lines 145-153). -/
def list_view_config (funcName label : String)
    (path_fragment : Option String := none) (requires_object : Bool := false)
    (permission : String := "view") : AdminBoostConfigBag :=
  { label := label
    path_fragment := path_fragment.getD (defaultFragment funcName)
    permission := permission
    view_type := "list"
    requires_object := requires_object
    show_in_object_tools := true }

/-- Bag attached by FormViewMixin.generate_admin_custom_form_view
(django_boosted/admin/views/form.py lines 31-38); its requires_object
parameter defaults to True. -/
def form_view_config (funcName label : String)
    (path_fragment : Option String := none) (requires_object : Bool := true)
    (permission : String := "view") : AdminBoostConfigBag :=
  { label := label
    path_fragment := path_fragment.getD (defaultFragment funcName)
    permission := permission
    view_type := "form"
    requires_object := requires_object
    show_in_object_tools := true }

/-- Bag attached by
AdminFormViewMixin.generate_admin_custom_adminform_view
(django_boosted/admin/views/adminform.py, final lines); its
requires_object parameter defaults to True. -/
def adminform_view_config (funcName label : String)
    (path_fragment : Option String := none) (requires_object : Bool := true)
    (permission : String := "view") : AdminBoostConfigBag :=
  { label := label
    path_fragment := path_fragment.getD (defaultFragment funcName)
    permission := permission
    view_type := "adminform"
    requires_object := requires_object
    show_in_object_tools := true }

/-- Bag first attached by ViewGenerator._generate_admin_custom_view
(django_boosted/admin/views/base.py lines 138-143): only the label,
path_fragment and permission keys. -/
structure BaseConfigBag where
  label : String
  path_fragment : String
  permission : String
deriving DecidableEq, Repr

/-- Base bag of _generate_admin_custom_view: path fragment from the
ViewConfig dataclass field, or the default from the handler name. -/
def base_generate_config (funcName label : String) (cfgFragment : Option String)
    (permission : String) : BaseConfigBag :=
  { label := label
    path_fragment := cfgFragment.getD (defaultFragment funcName)
    permission := permission }

/-- Bag attached by MessageViewMixin.generate_admin_custom_message_view
(django_boosted/admin/views/message.py): the base bag of
_generate_admin_custom_view updated with the view_type,
requires_object and show_in_object_tools keys. -/
def message_view_config (funcName label : String)
    (path_fragment : Option String := none) (requires_object : Bool := false)
    (permission : String := "view") : AdminBoostConfigBag :=
  let base := base_generate_config funcName label path_fragment permission
  { label := base.label
    path_fragment := base.path_fragment
    permission := base.permission
    view_type := "message"
    requires_object := requires_object
    show_in_object_tools := true }

/-- Bag attached by RedirectViewMixin.generate_admin_custom_redirect_view
(django_boosted/admin/views/redirect.py): the base bag updated with
the view_type, requires_object and show_in_object_tools keys; the
redirect wrapper shares the bag object of the base wrapper. -/
def redirect_view_config (funcName label : String)
    (path_fragment : Option String := none) (requires_object : Bool := false)
    (permission : String := "view") : AdminBoostConfigBag :=
  let base := base_generate_config funcName label path_fragment permission
  { label := base.label
    path_fragment := base.path_fragment
    permission := base.permission
    view_type := "redirect"
    requires_object := requires_object
    show_in_object_tools := true }

/-- The seven public view generators of the django_boosted
ViewGenerator (generator.py combines the mixins defining
generate_admin_custom_<type>_view for these types). -/
inductive BoostedGenerator
  | list | form | message | redirect | confirm | json | adminform
deriving DecidableEq, Repr

/-- Configuration bag produced by each public django_boosted
generator for the given handler name and arguments. -/
def generator_config (g : BoostedGenerator) (funcName label : String)
    (path_fragment : Option String) (requires_object : Bool)
    (permission : String) : AdminBoostConfigBag :=
  match g with
  | BoostedGenerator.list =>
    list_view_config funcName label path_fragment requires_object permission
  | BoostedGenerator.form =>
    form_view_config funcName label path_fragment requires_object permission
  | BoostedGenerator.message =>
    message_view_config funcName label path_fragment requires_object permission
  | BoostedGenerator.redirect =>
    redirect_view_config funcName label path_fragment requires_object permission
  | BoostedGenerator.confirm =>
    confirm_view_config funcName label path_fragment requires_object permission
  | BoostedGenerator.json =>
    json_view_config funcName label path_fragment requires_object permission
  | BoostedGenerator.adminform =>
    adminform_view_config funcName label path_fragment requires_object permission

/-! ## Confirm view wrapper (django_boosted/admin/views/confirm.py) -/

/-- Request data consumed by the confirm wrapper: the method, the
posted action value (request.POST.get("action")), the HTTP referer
header (none when absent or empty) and whether
url_has_allowed_host_and_scheme accepts the absolutized referer for
the request host. -/
structure ConfirmRequest where
  isPost : Bool
  action : Option String
  referer : Option String
  refererSafe : Bool
deriving DecidableEq, Repr

/-- Embedding of the django reverse helper for a route name with no arguments:
the URL is represented by the route name itself. -/
def reverseUrl (routeName : String) : String := routeName

/-- The admin changelist route name for a model, as interpolated in
the source: admin:{app_label}_{model_name}_changelist. -/
def changelistRoute (adm : ModelAdmin) : String :=
  "admin:" ++ adm.appLabel ++ "_" ++ adm.modelName ++ "_changelist"

/-- Embedding of _safe_redirect_url (confirm.py lines 30-38): the
referer when present and accepted by url_has_allowed_host_and_scheme,
the fallback URL otherwise. -/
def safe_redirect_url (req : ConfirmRequest) (fallback : String) : String :=
  match req.referer with
  | some r => if req.refererSafe then r else fallback
  | none => fallback

/-- Record of one confirm-wrapper invocation: the outcome, whether
the handler ran with confirmed=True (the POST confirm branch) and
whether it ran without the confirmed keyword (the GET branch). -/
structure ConfirmRun where
  result : ViewResult
  calledConfirmed : Bool
  calledPlain : Bool
deriving DecidableEq, Repr

/-- Embedding of the wrapper built by
ConfirmViewMixin.generate_admin_custom_confirm_view (confirm.py lines
40-89).  The handler takes the optional object and the confirmed
flag.  On POST, only the action value "confirm" invokes the handler
(with confirmed=True); an HttpResponse result is returned, any other
result falls through to the redirect shared with the cancel branch,
whose target is the safe referer or the changelist.  On GET the
handler runs without the confirmed keyword; an HttpResponse payload
is returned unchanged, a None payload hits payload.get and raises
AttributeError, a mapping payload renders the template with
confirm_message defaulting to "Are you sure?" and the two choices
defaulting to Confirm and Cancel, the rest of the mapping merged in
with the confirm and choices keys excluded.  A choices value that is
not a list makes the len() call raise TypeError. -/
def confirm_view (adm : ModelAdmin) (templateName : String) (label : String)
    (requiresObject : Bool) (handler : Option Nat → Bool → Payload)
    (req : ConfirmRequest) (objectId : Option String) : ConfirmRun :=
  match check_permissions adm (if requiresObject then objectId else none) with
  | CheckResult.notFoundRedirect => ⟨ViewResult.redirectNotFound, false, false⟩
  | CheckResult.permissionDenied => ⟨ViewResult.permissionDenied, false, false⟩
  | CheckResult.ok obj =>
    if req.isPost then
      let fallback := reverseUrl (changelistRoute adm)
      if req.action = some "confirm" then
        match handler (if requiresObject then obj else none) true with
        | Payload.http r => ⟨ViewResult.response r, true, false⟩
        | _ => ⟨ViewResult.redirectTo (safe_redirect_url req fallback), true, false⟩
      else ⟨ViewResult.redirectTo (safe_redirect_url req fallback), false, false⟩
    else
      match handler (if requiresObject then obj else none) false with
      | Payload.http r => ⟨ViewResult.response r, false, true⟩
      | Payload.nonePayload => ⟨ViewResult.pyError "AttributeError", false, true⟩
      | Payload.mapping m =>
        let confirmMessage := (dictGet m "confirm").getD (Val.s "Are you sure?")
        match (dictGet m "choices").getD (Val.strs ["Confirm", "Cancel"]) with
        | Val.strs choices =>
          let confirmChoice :=
            if h : 0 < choices.length then choices.get ⟨0, h⟩ else "Confirm"
          let cancelChoice :=
            if h : 1 < choices.length then choices.get ⟨1, h⟩ else "Cancel"
          let context := dictUpdate (adm.buildBaseContext obj)
            [("title", Val.s label), ("confirm_message", confirmMessage),
             ("confirm_choice", Val.s confirmChoice),
             ("cancel_choice", Val.s cancelChoice)]
          let context :=
            if m.isEmpty then context
            else dictUpdate context
              (m.filter fun kv => kv.fst ≠ "confirm" ∧ kv.fst ≠ "choices")
          ⟨ViewResult.template templateName context, false, true⟩
        | _ => ⟨ViewResult.pyError "TypeError", false, true⟩

/-! ## URL registration -/

/-- A registered admin URL: the path pattern string and the route
name passed to django.urls.path. -/
structure UrlPattern where
  pattern : String
  name : String
deriving DecidableEq, Repr

/-- The _admin_boost_config dict as read back through
config.get(...) by get_urls and the object-tools helpers.  Optional
fields model dict keys that may be absent; for path_fragment, none
also covers a falsy stored value, which the or-expression in the
readers skips. -/
structure ConfigDict where
  label : String
  path_fragment : Option String := none
  requires_object : Option Bool := none
  show_in_object_tools : Option Bool := none
deriving DecidableEq, Repr

/-- Route name f"{app_label}_{model_name}_{view_name}" used by every
get_urls variant and by the object-tools helpers. -/
def boostRouteName (appLabel modelName viewName : String) : String :=
  appLabel ++ "_" ++ modelName ++ "_" ++ viewName

/-- Embedding of django_boosted AdminBoostModel.get_urls
(admin/model.py lines 45-75) as the source loop: for each name in
boost_views, skip it when the attribute or its config is missing,
otherwise append one path whose pattern depends on
config.get("requires_object", False), and return the boost urls
prepended to the superclass urls.  getView models the truthiness of
getattr(self, view_name, None). -/
def boosted_get_urls (appLabel modelName : String) (viewNames : List String)
    (getView : String → Bool) (getConfig : String → Option ConfigDict)
    (superUrls : List UrlPattern) : List UrlPattern :=
  (viewNames.foldl (fun acc viewName =>
    match getConfig viewName with
    | none => acc
    | some cfg =>
      if ¬ getView viewName then acc
      else
        let fragment := (cfg.path_fragment).getD (replace_underscores viewName)
        let routeName := boostRouteName appLabel modelName viewName
        if cfg.requires_object.getD false then
          acc ++ [⟨"<path:object_id>/" ++ fragment ++ "/", routeName⟩]
        else
          acc ++ [⟨fragment ++ "/", routeName⟩]) []) ++ superUrls

/-- Embedding of django_admin_boost AdminBoostModel.get_urls
(admin/model.py lines 80-108): identical to the django_boosted loop
except that the requires_object key defaults to True. -/
def admin_boost_model_get_urls (appLabel modelName : String)
    (viewNames : List String) (getView : String → Bool)
    (getConfig : String → Option ConfigDict)
    (superUrls : List UrlPattern) : List UrlPattern :=
  (viewNames.foldl (fun acc viewName =>
    match getConfig viewName with
    | none => acc
    | some cfg =>
      if ¬ getView viewName then acc
      else
        let fragment := (cfg.path_fragment).getD (replace_underscores viewName)
        let routeName := boostRouteName appLabel modelName viewName
        if cfg.requires_object.getD true then
          acc ++ [⟨"<path:object_id>/" ++ fragment ++ "/", routeName⟩]
        else
          acc ++ [⟨fragment ++ "/", routeName⟩]) []) ++ superUrls

/-- Embedding of AdminBoostMixin.get_urls
(django_admin_boost/mixins.py lines 36-53): the registered pattern is
always f"<path:object_id>/{path_fragment}/", with no branch on the
requires_object key. -/
def mixin_get_urls (appLabel modelName : String) (viewNames : List String)
    (getView : String → Bool) (getConfig : String → Option ConfigDict)
    (superUrls : List UrlPattern) : List UrlPattern :=
  (viewNames.foldl (fun acc viewName =>
    match getConfig viewName with
    | none => acc
    | some cfg =>
      if ¬ getView viewName then acc
      else
        let fragment := (cfg.path_fragment).getD (replace_underscores viewName)
        let routeName := boostRouteName appLabel modelName viewName
        acc ++ [⟨"<path:object_id>/" ++ fragment ++ "/", routeName⟩]) []) ++ superUrls

/-- The description in the claim of a single boost route, written from the
spec sentence of C3 rather than from the source: one route named
{app_label}_{model_name}_{view_name} whose pattern is
object_id/fragment when the view requires an object and just the
fragment otherwise, with the fragment defaulting to the view name
with underscores replaced by hyphens. -/
def claimRoute (appLabel modelName viewName : String) (cfg : ConfigDict)
    (requiresObjectDefault : Bool) : UrlPattern :=
  let fragment := (cfg.path_fragment).getD (replace_underscores viewName)
  let routeName := boostRouteName appLabel modelName viewName
  if cfg.requires_object.getD requiresObjectDefault then
    ⟨"<path:object_id>/" ++ fragment ++ "/", routeName⟩
  else
    ⟨fragment ++ "/", routeName⟩

/-! ## Object tools (django_admin_boost) -/

/-- A label/url item contributed to the object-tools block. -/
structure ToolItem where
  label : String
  url : String
deriving DecidableEq, Repr

/-- Embedding of the django reverse helper for an admin route with a single
object_id argument, as called by the object-tools helpers: the URL is
represented by the namespaced route name paired with the argument. -/
def reverseObjectUrl (routeName objectId : String) : String :=
  "admin:" ++ routeName ++ "?" ++ objectId

/-- Embedding of AdminBoostMixin.get_boost_object_tools
(django_admin_boost/mixins.py lines 22-34) as the source loop: skip a
view whose config is missing or whose show_in_object_tools key
(defaulting to True) is false, otherwise append one item with the
config label and the reversal of the boost route for the object. -/
def mixin_get_boost_object_tools (appLabel modelName : String)
    (viewNames : List String) (getConfig : String → Option ConfigDict)
    (objectId : String) : List ToolItem :=
  viewNames.foldl (fun items viewName =>
    match getConfig viewName with
    | none => items
    | some cfg =>
      if cfg.show_in_object_tools.getD true then
        items ++ [⟨cfg.label,
          reverseObjectUrl (boostRouteName appLabel modelName viewName) objectId⟩]
      else items) []

/-- Embedding of AdminBoostModel.get_boost_object_tools
(django_admin_boost/admin/model.py lines 45-61): like the mixin
version but a view is also skipped when its requires_object key
(defaulting to False) is false. -/
def model_get_boost_object_tools (appLabel modelName : String)
    (viewNames : List String) (getConfig : String → Option ConfigDict)
    (objectId : String) : List ToolItem :=
  viewNames.foldl (fun items viewName =>
    match getConfig viewName with
    | none => items
    | some cfg =>
      if ¬ cfg.requires_object.getD false then items
      else if cfg.show_in_object_tools.getD true then
        items ++ [⟨cfg.label,
          reverseObjectUrl (boostRouteName appLabel modelName viewName) objectId⟩]
      else items) []

/-- The description in the claim of the object-tools list, written from
the spec sentence of C9 rather than from the source: in the order of
boost_views, one label/url item per view whose config exists and
whose show_in_object_tools key defaults to true, and nothing for the
other views. -/
def claimObjectTools (appLabel modelName : String) (viewNames : List String)
    (getConfig : String → Option ConfigDict) (objectId : String) : List ToolItem :=
  viewNames.filterMap fun viewName =>
    match getConfig viewName with
    | none => none
    | some cfg =>
      if cfg.show_in_object_tools.getD true then
        some ⟨cfg.label,
          reverseObjectUrl (boostRouteName appLabel modelName viewName) objectId⟩
      else none

/-! ## Boost view setup (django_boosted/admin/views/setup.py) -/

/-- The _admin_boost_view_config dict attached by the boost-view
decorator, as read by setup_boost_views: view_type and label are
indexed directly, the other keys through config.get. -/
structure ViewConfigAttr where
  view_type : String
  label : String
  template_name : Option String := none
  path_fragment : Option String := none
  requires_object : Option Bool := none
  permission : Option String := none
deriving DecidableEq, Repr

/-- One entry of dir(self.__class__) as inspected by
setup_boost_views: the attribute name, whether the attribute is
callable, the optional decorator config, and the parameter names of
inspect.signature (self included for a plain class-body function). -/
structure ClassAttr where
  name : String
  callable : Bool
  boostConfig : Option ViewConfigAttr := none
  params : List String := []
deriving DecidableEq, Repr

/-- Embedding of the requires_object inference of setup_boost_views
(setup.py line 30) and of the second AdminBoostModel.__init__ of
django_admin_boost (admin/model.py line 133): more than two
signature parameters and a parameter named obj after the second. -/
def infer_requires_object (params : List String) : Bool :=
  params.length > 2 && (params.drop 2).contains "obj"

/-- The generator call performed for one attribute: which
generate_admin_custom_<type>_view method ran and with which keyword
arguments.  templateKeyUnderscore records that a json view passes the
template under the _template_name keyword. -/
structure GenCall where
  methodName : String
  label : String
  template_name : Option String := none
  templateKeyUnderscore : Bool := false
  path_fragment : Option String := none
  requires_object : Bool
  permission : String
deriving DecidableEq, Repr

/-- The generate_admin_custom_<type>_view methods the django_boosted
ViewGenerator class actually defines (one per mixin combined in
generator.py). -/
def boostedGeneratorMethods : List String :=
  ["generate_admin_custom_list_view",
   "generate_admin_custom_form_view",
   "generate_admin_custom_message_view",
   "generate_admin_custom_redirect_view",
   "generate_admin_custom_confirm_view",
   "generate_admin_custom_json_view",
   "generate_admin_custom_adminform_view"]

/-- Embedding of setup_boost_views
(django_boosted/admin/views/setup.py lines 8-52): walk the class
attributes, skip names starting with an underscore, non-callables and
attributes without a decorator config, infer requires_object from the
signature when the config leaves it unset, skip the attribute when
the generator has no method for the view type, and otherwise replace
the instance attribute with the view produced by the generator call.
The returned list pairs each replaced attribute name with the call
that produced its view, in scan order. -/
def setup_boost_views (attrs : List ClassAttr)
    (generatorMethods : List String) : List (String × GenCall) :=
  attrs.foldl (fun acc attr =>
    if starts_with_underscore attr.name then acc
    else if ¬ attr.callable then acc
    else
      match attr.boostConfig with
      | none => acc
      | some cfg =>
        let requiresObject :=
          cfg.requires_object.getD (infer_requires_object attr.params)
        let methodName := "generate_admin_custom_" ++ cfg.view_type ++ "_view"
        if generatorMethods.contains methodName then
          acc ++ [(attr.name,
            { methodName := methodName
              label := cfg.label
              template_name := cfg.template_name
              templateKeyUnderscore := cfg.view_type = "json"
              path_fragment := cfg.path_fragment
              requires_object := requiresObject
              permission := cfg.permission.getD "view" })]
        else acc) []

/-- The view types the second AdminBoostModel.__init__ of
django_admin_boost dispatches on (admin/model.py lines 137-164); any
other view type falls into the final continue. -/
def adminBoostInitHandledTypes : List String :=
  ["list", "form", "message", "json"]

/-- Embedding of the boost-view installation loop of the second
AdminBoostModel.__init__ of django_admin_boost (admin/model.py lines
110-166), at the granularity of which attributes get replaced: the
same scan and requires_object inference as setup_boost_views, but
only the view types list, form, message and json are installed (a
list view that requires an object is built by the form generator). -/
def admin_boost_init_setup (attrs : List ClassAttr) : List (String × String) :=
  attrs.foldl (fun acc attr =>
    if starts_with_underscore attr.name then acc
    else if ¬ attr.callable then acc
    else
      match attr.boostConfig with
      | none => acc
      | some cfg =>
        let requiresObject :=
          cfg.requires_object.getD (infer_requires_object attr.params)
        if cfg.view_type = "list" then
          if requiresObject then
            acc ++ [(attr.name, "generate_admin_custom_form_view")]
          else
            acc ++ [(attr.name, "generate_admin_custom_list_view")]
        else if cfg.view_type = "form" then
          acc ++ [(attr.name, "generate_admin_custom_form_view")]
        else if cfg.view_type = "message" then
          acc ++ [(attr.name, "generate_admin_custom_message_view")]
        else if cfg.view_type = "json" then
          acc ++ [(attr.name, "generate_admin_custom_json_view")]
        else acc) []

/-! ## Spec-side descriptions for refinement claims

The following definitions are written from the words of the claims
(not from the source); the theorems below compare them with the
loop-based embeddings of the source. -/

/-- Spec description of django_boosted AdminBoostModel.get_urls for
claim C3: one route per listed view with a present attribute and
config, boost routes prepended, requires_object defaulting to false. -/
def boostedUrlsSpec (appLabel modelName : String) (viewNames : List String)
    (getView : String → Bool) (getConfig : String → Option ConfigDict)
    (superUrls : List UrlPattern) : List UrlPattern :=
  (viewNames.filterMap fun viewName =>
    match getConfig viewName with
    | none => none
    | some cfg =>
      if getView viewName then
        some (claimRoute appLabel modelName viewName cfg false)
      else none) ++ superUrls

/-- Spec description of django_admin_boost AdminBoostModel.get_urls
for claim C3, with the requires_object key defaulting to true. -/
def adminBoostModelUrlsSpec (appLabel modelName : String)
    (viewNames : List String) (getView : String → Bool)
    (getConfig : String → Option ConfigDict)
    (superUrls : List UrlPattern) : List UrlPattern :=
  (viewNames.filterMap fun viewName =>
    match getConfig viewName with
    | none => none
    | some cfg =>
      if getView viewName then
        some (claimRoute appLabel modelName viewName cfg true)
      else none) ++ superUrls

/-- Amended description of AdminBoostMixin.get_urls: the object-id
pattern is used for every boost route, whatever the requires_object
key says. -/
def mixinUrlsSpec (appLabel modelName : String) (viewNames : List String)
    (getView : String → Bool) (getConfig : String → Option ConfigDict)
    (superUrls : List UrlPattern) : List UrlPattern :=
  (viewNames.filterMap fun viewName =>
    match getConfig viewName with
    | none => none
    | some cfg =>
      if getView viewName then
        some (⟨"<path:object_id>/" ++
            (cfg.path_fragment).getD (replace_underscores viewName) ++ "/",
          boostRouteName appLabel modelName viewName⟩ : UrlPattern)
      else none) ++ superUrls

/-- Amended description of AdminBoostModel.get_boost_object_tools of
django_admin_boost for claim C9: an item is contributed only when the
config additionally has requires_object true (the key defaulting to
false). -/
def modelObjectToolsSpec (appLabel modelName : String)
    (viewNames : List String) (getConfig : String → Option ConfigDict)
    (objectId : String) : List ToolItem :=
  viewNames.filterMap fun viewName =>
    match getConfig viewName with
    | none => none
    | some cfg =>
      if cfg.requires_object.getD false ∧ cfg.show_in_object_tools.getD true then
        some ⟨cfg.label,
          reverseObjectUrl (boostRouteName appLabel modelName viewName) objectId⟩
      else none

/-- The generator call claim C6 predicts for a qualifying attribute:
the generator method of the configured view type, with requires_object
resolved by the signature inference when the config leaves it
unset. -/
def expectedGenCall (cfg : ViewConfigAttr) (params : List String) : GenCall :=
  { methodName := "generate_admin_custom_" ++ cfg.view_type ++ "_view"
    label := cfg.label
    template_name := cfg.template_name
    templateKeyUnderscore := cfg.view_type = "json"
    path_fragment := cfg.path_fragment
    requires_object := cfg.requires_object.getD (infer_requires_object params)
    permission := cfg.permission.getD "view" }

/-- Amended description of setup_boost_views for claim C6: a public
callable attribute with a decorator config is replaced exactly when
the generator defines a method for its view type, and then by the
expected generator call. -/
def setupViewsSpec (attrs : List ClassAttr)
    (generatorMethods : List String) : List (String × GenCall) :=
  attrs.filterMap fun attr =>
    if starts_with_underscore attr.name then none
    else if ¬ attr.callable then none
    else
      match attr.boostConfig with
      | none => none
      | some cfg =>
        if generatorMethods.contains
            ("generate_admin_custom_" ++ cfg.view_type ++ "_view") then
          some (attr.name, expectedGenCall cfg attr.params)
        else none

/-- Generator method chosen by the second AdminBoostModel.__init__ of
django_admin_boost for a handled view type: the list type is built by
the form generator when the view requires an object, every other
handled type by its own generator. -/
def adminBoostInitMethod (cfg : ViewConfigAttr) (params : List String) : String :=
  if cfg.view_type = "list" then
    if cfg.requires_object.getD (infer_requires_object params) then
      "generate_admin_custom_form_view"
    else "generate_admin_custom_list_view"
  else "generate_admin_custom_" ++ cfg.view_type ++ "_view"

/-- Amended description of the installation loop of the second
AdminBoostModel.__init__ of django_admin_boost for claim C6: a public
callable attribute with a decorator config is replaced exactly when
its view type is one of the four handled types. -/
def adminBoostInitSpec (attrs : List ClassAttr) : List (String × String) :=
  attrs.filterMap fun attr =>
    if starts_with_underscore attr.name then none
    else if ¬ attr.callable then none
    else
      match attr.boostConfig with
      | none => none
      | some cfg =>
        if adminBoostInitHandledTypes.contains cfg.view_type then
          some (attr.name, adminBoostInitMethod cfg attr.params)
        else none

/-! ## Helper lemmas -/

/-- A left fold that appends at most one element per input equals the
initial accumulator followed by a filterMap. -/
theorem foldl_append_filterMap {α β : Type} (step : List β → α → List β)
    (F : α → Option β)
    (hstep : ∀ acc a, step acc a =
      match F a with | some b => acc ++ [b] | none => acc)
    (l : List α) (acc : List β) :
    l.foldl step acc = acc ++ l.filterMap F := by
  induction l generalizing acc with
  | nil => simp
  | cons a t ih =>
    rw [List.foldl_cons, hstep, List.filterMap_cons]
    cases h : F a with
    | none => simp [ih]
    | some b => simp [ih]

/-- Lookup distributes over list concatenation, first list first. -/
theorem dictGet_append (a b : List (String × Val)) (k : String) :
    dictGet (a ++ b) k = (dictGet a k).or (dictGet b k) := by
  induction a with
  | nil => simp [dictGet]
  | cons kv t ih =>
    by_cases h : kv.fst = k
    · simp [dictGet, h]
    · simp [dictGet, h, ih]

/-- Lookup in the key-preserving override map of dictUpdate. -/
theorem dictGet_map_override (base upd : List (String × Val)) (k : String) :
    dictGet (base.map fun kv =>
      match dictGet upd kv.fst with
      | some v => (kv.fst, v)
      | none => kv) k =
    match dictGet base k with
    | some v =>
      match dictGet upd k with
      | some w => some w
      | none => some v
    | none => none := by
  induction base with
  | nil => simp [dictGet]
  | cons kv t ih =>
    by_cases h : kv.fst = k
    · subst h
      cases hu : dictGet upd kv.fst <;>
        simp [dictGet, hu, List.map_cons]
    · cases hu : dictGet upd kv.fst <;>
        simp [dictGet, h, hu, List.map_cons, ih]

/-- Lookup in the new-keys part of dictUpdate. -/
theorem dictGet_filter_haskey (upd base : List (String × Val)) (k : String) :
    dictGet (upd.filter (fun u => ! dictHasKey base u.fst)) k =
      if dictHasKey base k then none else dictGet upd k := by
  induction upd with
  | nil => simp [dictGet]
  | cons u t ih =>
    by_cases hk : u.fst = k
    · subst hk
      by_cases hb : dictHasKey base u.fst
      · simp [List.filter_cons, hb, ih]
      · simp [List.filter_cons, hb, dictGet, ih]
    · by_cases hb : dictHasKey base u.fst
      · rw [List.filter_cons]
        have hnot : (!dictHasKey base u.fst) = false := by simp [hb]
        rw [hnot]
        simp only [Bool.false_eq_true, if_false]
        rw [ih]
        have hcons : dictGet (u :: t) k = dictGet t k := by simp [dictGet, hk]
        rw [hcons]
      · simp [List.filter_cons, hb, dictGet, hk, ih]

/-- Key membership agrees with lookup success. -/
theorem dictHasKey_eq_isSome (d : List (String × Val)) (k : String) :
    dictHasKey d k = (dictGet d k).isSome := by
  induction d with
  | nil => rfl
  | cons kv t ih =>
    by_cases h : kv.fst = k
    · simp [dictHasKey, dictGet, h]
    · simp [dictHasKey, dictGet, h, ih]

/-- Lookup semantics of dict.update: keys of the update win, the base
answers for the others. -/
theorem dictGet_dictUpdate (base upd : List (String × Val)) (k : String) :
    dictGet (dictUpdate base upd) k = (dictGet upd k).or (dictGet base k) := by
  unfold dictUpdate
  rw [dictGet_append, dictGet_map_override, dictGet_filter_haskey,
    dictHasKey_eq_isSome]
  cases hb : dictGet base k <;> cases hu : dictGet upd k <;> simp

/-! ## Claims -/

/-- C10: the class body of AdminBoostModel in django_admin_boost
defines __init__ twice, so the second definition replaces the first;
construction therefore runs the second body, which never invokes a
change_fieldsets hook and never deep-copies fieldsets, whether or not
the class defines the hook.  (The replaced first definition would
have invoked the hook.) -/
theorem c10_duplicate_init :
    (∀ hasChangeFieldsets : Bool,
      adminBoostModelInit hasChangeFieldsets =
        admin_boost_init_v2 hasChangeFieldsets) ∧
    (∀ hasChangeFieldsets : Bool,
      InitAction.callChangeFieldsets ∉ adminBoostModelInit hasChangeFieldsets) ∧
    (∀ hasChangeFieldsets : Bool,
      InitAction.deepCopyFieldsets ∉ adminBoostModelInit hasChangeFieldsets) ∧
    InitAction.callChangeFieldsets ∈ admin_boost_init_v1 true := by
  refine ⟨?_, ?_, ?_, ?_⟩
  · intro b; cases b <;> decide
  · intro b; cases b <;> decide
  · intro b; cases b <;> decide
  · decide

/-- C4: when the admin class defines a non-empty changeform_actions
attribute, django_boosted has_change_permission returns True whatever
the superclass check would have said. -/
theorem c4_changeform_actions_bypass
    (actions : List (String × String)) (superResult : Bool)
    (h : actions ≠ []) :
    has_change_permission (some actions) superResult = true := by
  unfold has_change_permission
  simp [List.isEmpty_iff, h]

/-- Witness for C4 at a concrete one-action attribute with a refusing
superclass. -/
theorem c4_changeform_actions_bypass_witness :
    has_change_permission (some [("publish", "Publish")]) false = true :=
  c4_changeform_actions_bypass [("publish", "Publish")] false (by decide)

/-- Concrete admin granting every permission, with every object id
resolving to object 1 and an empty base context. -/
def admAllow : ModelAdmin :=
  { getObject := fun _ => some 1
    hasViewPermission := fun _ => true
    hasChangePermission := fun _ => true
    hasDeletePermission := fun _ => false
    hasAddPermission := true
    hasViewOrChangePermission := fun _ => true
    buildBaseContext := fun _ => []
    appLabel := "app"
    modelName := "country" }

/-- Concrete admin whose object lookup always fails. -/
def admNoObject : ModelAdmin :=
  { admAllow with getObject := fun _ => none }

/-- Concrete admin that denies the view permission on objects. -/
def admDenyView : ModelAdmin :=
  { admAllow with hasViewPermission := fun _ => false }

/-- C1 counterexample: a django_boosted view generated with the
configured permission "delete" still runs its handler for a request
that lacks the delete permission, because
ViewGenerator._check_permissions only ever consults
has_view_permission.  This contradicts the claim that the check
performed is the one named by the configured permission value and
that the handler runs only when that check succeeds. -/
theorem c1_counterexample :
    (create_view_object admAllow
      { template_name := "t.html", requires_object := true,
        permission := "delete" }
      "Delete tool" (fun _ => Payload.nonePayload) (some "1")).handlerCalled
        = true ∧
    admAllow.hasDeletePermission (some 1) = false ∧
    (ViewConfig.permission
      { template_name := "t.html", requires_object := true,
        permission := "delete" }) = "delete" := by
  refine ⟨by decide, by decide, rfl⟩

/-- C1 amended: the django_admin_boost decorator views dispatch on
the configured permission exactly as claimed (change, delete and add
name the corresponding has_*_permission methods, anything else checks
has_view_or_change_permission) and call the handler only when that
check succeeds; the django_boosted generated views instead always
perform the view-level has_view_permission check, whatever the
configured permission says, and call the handler only when it
succeeds. -/
theorem c1_permission_checks :
    (∀ adm obj, resolve_permission_checker "change" adm obj =
      adm.hasChangePermission obj) ∧
    (∀ adm obj, resolve_permission_checker "delete" adm obj =
      adm.hasDeletePermission obj) ∧
    (∀ adm obj, resolve_permission_checker "add" adm obj =
      adm.hasAddPermission) ∧
    (∀ p adm obj, p ≠ "change" → p ≠ "delete" → p ≠ "add" →
      resolve_permission_checker p adm obj =
        adm.hasViewOrChangePermission obj) ∧
    (∀ p adm oid obj,
      admin_boost_object_view_phase p adm oid = ObjectViewPhase.handlerPhase obj →
      resolve_permission_checker p adm (some obj) = true) ∧
    (∀ adm cfg label handler oid,
      (create_view_object adm cfg label handler oid).handlerCalled = true →
      ∃ obj, check_permissions adm oid = CheckResult.ok obj) ∧
    (∀ adm cfg label handler oid p,
      create_view_object adm { cfg with permission := p } label handler oid =
        create_view_object adm cfg label handler oid) := by
  refine ⟨fun adm obj => rfl, fun adm obj => rfl, fun adm obj => rfl,
    ?_, ?_, ?_, fun adm cfg label handler oid p => rfl⟩
  · intro p adm obj h1 h2 h3
    simp [resolve_permission_checker, h1, h2, h3]
  · intro p adm oid obj h
    unfold admin_boost_object_view_phase at h
    cases hg : adm.getObject oid with
    | none =>
      rw [hg] at h
      exact absurd h (by simp)
    | some o =>
      rw [hg] at h
      dsimp only at h
      by_cases hp : resolve_permission_checker p adm (some o) = true
      · rw [if_pos hp] at h
        cases h
        exact hp
      · rw [if_neg hp] at h
        exact absurd h (by simp)
  · intro adm cfg label handler oid h
    unfold create_view_object at h
    cases hc : check_permissions adm oid with
    | notFoundRedirect =>
      rw [hc] at h
      exact absurd h (by simp)
    | permissionDenied =>
      rw [hc] at h
      exact absurd h (by simp)
    | ok obj => exact ⟨obj, rfl⟩

/-- Witness for C1 at concrete inputs: the catch-all branch of the
permission dispatch, and a handler call of a generated view that went
through a successful permission check. -/
theorem c1_permission_checks_witness :
    resolve_permission_checker "view" admAllow (some 1) =
      admAllow.hasViewOrChangePermission (some 1) ∧
    resolve_permission_checker "add" admAllow (some 1) = true ∧
    (∃ obj, check_permissions admAllow (some "1") = CheckResult.ok obj) := by
  refine ⟨c1_permission_checks.2.2.2.1 "view" admAllow (some 1)
      (by decide) (by decide) (by decide),
    c1_permission_checks.2.2.2.2.1 "add" admAllow "1" 1 (by decide),
    c1_permission_checks.2.2.2.2.2.1 admAllow
      { template_name := "t.html" } "L" (fun _ => Payload.nonePayload)
      (some "1") (by decide)⟩

/-- C2: for a generated object-level boost view invoked with an
object_id, a missing object yields the object-does-not-exist redirect
without calling the handler, and an existing object failing the
permission check raises PermissionDenied without calling the handler
— for the decorator wrapper of django_admin_boost (whose check is the
resolved permission checker) and for the django_boosted generated
views (whose check is has_view_permission). -/
theorem c2_object_view_errors (perm : String) (adm : ModelAdmin) (oid : String) :
    (adm.getObject oid = none →
      admin_boost_object_view_phase perm adm oid =
        ObjectViewPhase.notFoundRedirect ∧
      ∀ cfg label handler,
        create_view_object adm cfg label handler (some oid) =
          ⟨ViewResult.redirectNotFound, false⟩) ∧
    (∀ obj, adm.getObject oid = some obj →
      (resolve_permission_checker perm adm (some obj) = false →
        admin_boost_object_view_phase perm adm oid =
          ObjectViewPhase.permissionDenied) ∧
      (adm.hasViewPermission (some obj) = false →
        ∀ cfg label handler,
          create_view_object adm cfg label handler (some oid) =
            ⟨ViewResult.permissionDenied, false⟩)) := by
  constructor
  · intro hnone
    constructor
    · unfold admin_boost_object_view_phase
      rw [hnone]
    · intro cfg label handler
      unfold create_view_object check_permissions
      dsimp only
      rw [hnone]
  · intro obj hsome
    constructor
    · intro hperm
      unfold admin_boost_object_view_phase
      rw [hsome]
      dsimp only
      rw [hperm]
      simp
    · intro hview cfg label handler
      unfold create_view_object check_permissions
      dsimp only
      rw [hsome]
      dsimp only
      rw [hview]
      simp

/-- Witness for C2: the missing-object case and the denied-view case
at concrete admins. -/
theorem c2_object_view_errors_witness :
    admin_boost_object_view_phase "view" admNoObject "7" =
      ObjectViewPhase.notFoundRedirect ∧
    create_view_object admDenyView { template_name := "t.html" } "L"
      (fun _ => Payload.nonePayload) (some "7") =
      ⟨ViewResult.permissionDenied, false⟩ := by
  refine ⟨((c2_object_view_errors "view" admNoObject "7").1 (by rfl)).1,
    ((c2_object_view_errors "view" admDenyView "7").2 1 (by rfl)).2 (by rfl)
      { template_name := "t.html" } "L" (fun _ => Payload.nonePayload)⟩

/-- C3 counterexample: AdminBoostMixin.get_urls registers the
object-id pattern even for a view whose config says
requires_object=False, contradicting the claim that such a view gets
the bare fragment pattern. -/
theorem c3_counterexample :
    mixin_get_urls "app" "country" ["my_view"] (fun _ => true)
      (fun _ => some { label := "L", requires_object := some false }) [] =
      [⟨"<path:object_id>/my-view/", "app_country_my_view"⟩] ∧
    ("<path:object_id>/my-view/" : String) ≠ "my-view/" := by
  exact ⟨by decide, by decide⟩

/-- C3 amended: for every boost view with a present attribute and
config, each get_urls variant registers exactly one route named
app_model_viewname, with the boost routes prepended to the superclass
urls and the fragment defaulting to the view name with underscores
replaced by hyphens; the two AdminBoostModel variants branch on the
requires_object key (django_boosted defaulting it to false,
django_admin_boost to true) while AdminBoostMixin.get_urls always
uses the object-id pattern. -/
theorem c3_get_urls (app model : String) (names : List String)
    (getView : String → Bool) (getConfig : String → Option ConfigDict)
    (superUrls : List UrlPattern) :
    boosted_get_urls app model names getView getConfig superUrls =
      boostedUrlsSpec app model names getView getConfig superUrls ∧
    admin_boost_model_get_urls app model names getView getConfig superUrls =
      adminBoostModelUrlsSpec app model names getView getConfig superUrls ∧
    mixin_get_urls app model names getView getConfig superUrls =
      mixinUrlsSpec app model names getView getConfig superUrls := by
  refine ⟨?_, ?_, ?_⟩
  · unfold boosted_get_urls boostedUrlsSpec
    rw [foldl_append_filterMap _ (fun viewName =>
        match getConfig viewName with
        | none => none
        | some cfg =>
          if getView viewName then
            some (claimRoute app model viewName cfg false)
          else none)]
    · rw [List.nil_append]
    · intro acc vn
      cases hc : getConfig vn with
      | none => rfl
      | some cfg =>
        dsimp only
        by_cases hv : getView vn
        · rw [if_neg (by simp [hv]), if_pos hv]
          by_cases hro : cfg.requires_object.getD false
          · simp [claimRoute, hro]
          · simp [claimRoute, hro]
        · rw [if_pos (by simp [hv]), if_neg hv]
  · unfold admin_boost_model_get_urls adminBoostModelUrlsSpec
    rw [foldl_append_filterMap _ (fun viewName =>
        match getConfig viewName with
        | none => none
        | some cfg =>
          if getView viewName then
            some (claimRoute app model viewName cfg true)
          else none)]
    · rw [List.nil_append]
    · intro acc vn
      cases hc : getConfig vn with
      | none => rfl
      | some cfg =>
        dsimp only
        by_cases hv : getView vn
        · rw [if_neg (by simp [hv]), if_pos hv]
          by_cases hro : cfg.requires_object.getD true
          · simp [claimRoute, hro]
          · simp [claimRoute, hro]
        · rw [if_pos (by simp [hv]), if_neg hv]
  · unfold mixin_get_urls mixinUrlsSpec
    rw [foldl_append_filterMap _ (fun viewName =>
        match getConfig viewName with
        | none => none
        | some cfg =>
          if getView viewName then
            some (⟨"<path:object_id>/" ++
                (cfg.path_fragment).getD (replace_underscores viewName) ++ "/",
              boostRouteName app model viewName⟩ : UrlPattern)
          else none)]
    · rw [List.nil_append]
    · intro acc vn
      cases hc : getConfig vn with
      | none => rfl
      | some cfg =>
        dsimp only
        by_cases hv : getView vn
        · rw [if_neg (by simp [hv]), if_pos hv]
        · rw [if_pos (by simp [hv]), if_neg hv]

/-- C5: for each template-backed django_boosted view whose permission
check succeeds, an HttpResponse payload is returned unchanged and a
non-empty mapping payload is merged into the title-extended base
admin context with the mapping winning on key collisions, rendered
through the configured template; a json view returns an HttpResponse
payload unchanged and wraps any other payload in JsonResponse with
safe=False. -/
theorem c5_view_payload_dispatch
    (adm : ModelAdmin) (cfg : ViewConfig) (label : String) :
    (∀ handler oid obj, check_permissions adm oid = CheckResult.ok obj →
      (∀ r, handler obj = Payload.http r →
        create_view_object adm cfg label handler oid =
          ⟨ViewResult.response r, true⟩) ∧
      (∀ m, handler obj = Payload.mapping m → m ≠ [] →
        create_view_object adm cfg label handler oid =
          ⟨ViewResult.template cfg.template_name
            (dictUpdate
              (dictIns (adm.buildBaseContext obj) "title" (Val.s label)) m),
            true⟩ ∧
        ∀ k, dictGet (dictUpdate
            (dictIns (adm.buildBaseContext obj) "title" (Val.s label)) m) k =
          (dictGet m k).or
            (dictGet
              (dictIns (adm.buildBaseContext obj) "title" (Val.s label)) k))) ∧
    (∀ p obj, check_permissions adm none = CheckResult.ok obj →
      (∀ r, p = Payload.http r →
        create_view_noobject adm cfg label p = ⟨ViewResult.response r, true⟩) ∧
      (∀ m, p = Payload.mapping m → m ≠ [] →
        create_view_noobject adm cfg label p =
          ⟨ViewResult.template cfg.template_name
            (dictUpdate
              (dictIns (adm.buildBaseContext obj) "title" (Val.s label)) m),
            true⟩)) ∧
    (∀ requiresObject handler oid obj,
      check_permissions adm (if requiresObject then oid else none) =
        CheckResult.ok obj →
      (∀ r, (if requiresObject then handler obj else handler none) =
          Payload.http r →
        json_view adm requiresObject handler oid = ⟨ViewResult.response r, true⟩) ∧
      (∀ m, (if requiresObject then handler obj else handler none) =
          Payload.mapping m →
        json_view adm requiresObject handler oid =
          ⟨ViewResult.jsonResponse (Payload.mapping m) false, true⟩) ∧
      ((if requiresObject then handler obj else handler none) =
          Payload.nonePayload →
        json_view adm requiresObject handler oid =
          ⟨ViewResult.jsonResponse Payload.nonePayload false, true⟩)) := by
  refine ⟨?_, ?_, ?_⟩
  · intro handler oid obj hok
    constructor
    · intro r hr
      unfold create_view_object
      rw [hok]
      dsimp only
      rw [hr]
    · intro m hm hne
      have hiso : m.isEmpty = false := by
        cases m with
        | nil => exact absurd rfl hne
        | cons a t => rfl
      constructor
      · unfold create_view_object
        rw [hok]
        dsimp only
        rw [hm]
        dsimp only
        rw [hiso]
        simp
      · intro k
        exact dictGet_dictUpdate _ m k
  · intro p obj hok
    constructor
    · intro r hr
      unfold create_view_noobject
      rw [hok]
      dsimp only
      rw [hr]
    · intro m hm hne
      have hiso : m.isEmpty = false := by
        cases m with
        | nil => exact absurd rfl hne
        | cons a t => rfl
      unfold create_view_noobject
      rw [hok]
      dsimp only
      rw [hm]
      dsimp only
      rw [hiso]
      simp
  · intro requiresObject handler oid obj hok
    refine ⟨?_, ?_, ?_⟩
    · intro r hr
      unfold json_view
      rw [hok]
      dsimp only
      rw [hr]
    · intro m hm
      unfold json_view
      rw [hok]
      dsimp only
      rw [hm]
    · intro hn
      unfold json_view
      rw [hok]
      dsimp only
      rw [hn]

/-- Witness for C5 at a concrete admin and payloads: an HttpResponse
payload passes through, and a one-entry mapping payload is merged
over the base context and rendered. -/
theorem c5_view_payload_dispatch_witness :
    create_view_object admAllow { template_name := "t.html" } "L"
      (fun _ => Payload.http 42) (some "1") = ⟨ViewResult.response 42, true⟩ ∧
    create_view_object admAllow { template_name := "t.html" } "L"
      (fun _ => Payload.mapping [("message", Val.s "hi")]) (some "1") =
      ⟨ViewResult.template "t.html"
        (dictUpdate (dictIns (admAllow.buildBaseContext (some 1)) "title"
          (Val.s "L")) [("message", Val.s "hi")]), true⟩ ∧
    json_view admAllow false (fun _ => Payload.mapping [("a", Val.n 1)])
      none = ⟨ViewResult.jsonResponse (Payload.mapping [("a", Val.n 1)]) false,
        true⟩ := by
  refine ⟨((c5_view_payload_dispatch admAllow { template_name := "t.html" }
      "L").1 (fun _ => Payload.http 42) (some "1") (some 1) (by rfl)).1
      42 (by rfl),
    (((c5_view_payload_dispatch admAllow { template_name := "t.html" }
      "L").1 (fun _ => Payload.mapping [("message", Val.s "hi")]) (some "1")
      (some 1) (by rfl)).2 [("message", Val.s "hi")] (by rfl) (by decide)).1,
    ((c5_view_payload_dispatch admAllow { template_name := "t.html" }
      "L").2.2 false (fun _ => Payload.mapping [("a", Val.n 1)]) none none
      (by rfl)).2.1 [("a", Val.n 1)] (by rfl)⟩

/-- C6 counterexample: a public callable class attribute carrying a
decorator config with a view type no generator method matches is left
unreplaced by setup_boost_views, and likewise a confirm-type config
is skipped by the django_admin_boost installation loop — contradicting
the claim that every such attribute is replaced. -/
theorem c6_counterexample :
    setup_boost_views
      [{ name := "custom_view", callable := true,
         boostConfig := some { view_type := "bogus", label := "L" },
         params := ["self", "request"] }]
      boostedGeneratorMethods = [] ∧
    admin_boost_init_setup
      [{ name := "confirm_view", callable := true,
         boostConfig := some { view_type := "confirm", label := "L" },
         params := ["self", "request"] }] = [] := by
  exact ⟨by decide, by decide⟩

/-- C6 amended: at construction, a public callable class attribute
carrying a decorator config is replaced by the generated
view exactly when the view-generation layer supports the configured
view type (in django_boosted, a generate_admin_custom_type_view
method exists; in django_admin_boost, the type is list, form, message
or json); when the config leaves requires_object unset it is inferred
to be true exactly when the signature has more than two parameters
and one named obj after the second. -/
theorem c6_setup_views (attrs : List ClassAttr)
    (generatorMethods : List String) :
    setup_boost_views attrs generatorMethods =
      setupViewsSpec attrs generatorMethods ∧
    admin_boost_init_setup attrs = adminBoostInitSpec attrs ∧
    (∀ cfg params, (expectedGenCall cfg params).requires_object =
      cfg.requires_object.getD
        (params.length > 2 && (params.drop 2).contains "obj")) := by
  refine ⟨?_, ?_, fun cfg params => rfl⟩
  · unfold setup_boost_views setupViewsSpec
    rw [foldl_append_filterMap _ (fun attr =>
        if starts_with_underscore attr.name then none
        else if ¬ attr.callable then none
        else
          match attr.boostConfig with
          | none => none
          | some cfg =>
            if generatorMethods.contains
                ("generate_admin_custom_" ++ cfg.view_type ++ "_view") then
              some (attr.name, expectedGenCall cfg attr.params)
            else none)]
    · rw [List.nil_append]
    · intro acc attr
      by_cases hu : starts_with_underscore attr.name
      · simp [hu]
      · by_cases hc : attr.callable
        · cases hcfg : attr.boostConfig with
          | none => simp [hu, hc]
          | some cfg =>
            by_cases hm :
                ("generate_admin_custom_" ++ cfg.view_type ++ "_view")
                  ∈ generatorMethods
            · simp [hu, hc, hm, expectedGenCall]
            · simp [hu, hc, hm]
        · simp [hu, hc]
  · unfold admin_boost_init_setup adminBoostInitSpec
    rw [foldl_append_filterMap _ (fun attr =>
        if starts_with_underscore attr.name then none
        else if ¬ attr.callable then none
        else
          match attr.boostConfig with
          | none => none
          | some cfg =>
            if adminBoostInitHandledTypes.contains cfg.view_type then
              some (attr.name, adminBoostInitMethod cfg attr.params)
            else none)]
    · rw [List.nil_append]
    · intro acc attr
      by_cases hu : starts_with_underscore attr.name
      · simp [hu]
      · by_cases hc : attr.callable
        · cases hcfg : attr.boostConfig with
          | none => simp [hu, hc]
          | some cfg =>
            by_cases hlist : cfg.view_type = "list"
            · by_cases hro : cfg.requires_object.getD
                  (infer_requires_object attr.params)
              · simp [hu, hc, hlist, hro, adminBoostInitMethod,
                  adminBoostInitHandledTypes]
              · simp [hu, hc, hlist, hro, adminBoostInitMethod,
                  adminBoostInitHandledTypes]
            · by_cases hform : cfg.view_type = "form"
              · simp [hu, hc, hlist, hform, adminBoostInitMethod,
                  adminBoostInitHandledTypes]
              · by_cases hmsg : cfg.view_type = "message"
                · simp [hu, hc, hlist, hform, hmsg, adminBoostInitMethod,
                    adminBoostInitHandledTypes]
                · by_cases hjson : cfg.view_type = "json"
                  · simp [hu, hc, hlist, hform, hmsg, hjson,
                      adminBoostInitMethod, adminBoostInitHandledTypes]
                  · simp [hu, hc, hlist, hform, hmsg, hjson,
                      adminBoostInitHandledTypes]
        · simp [hu, hc]

/-- Witness for C6: a json-type attribute with requires_object left
unset on a three-parameter signature ending in obj gets replaced with
an inferred requires_object of true. -/
theorem c6_setup_views_witness :
    setup_boost_views
      [{ name := "object_json", callable := true,
         boostConfig := some { view_type := "json", label := "J" },
         params := ["self", "request", "obj"] }]
      boostedGeneratorMethods =
      setupViewsSpec
        [{ name := "object_json", callable := true,
           boostConfig := some { view_type := "json", label := "J" },
           params := ["self", "request", "obj"] }]
        boostedGeneratorMethods ∧
    setupViewsSpec
      [{ name := "object_json", callable := true,
         boostConfig := some { view_type := "json", label := "J" },
         params := ["self", "request", "obj"] }]
      boostedGeneratorMethods =
      [("object_json",
        { methodName := "generate_admin_custom_json_view", label := "J",
          templateKeyUnderscore := true, requires_object := true,
          permission := "view" })] := by
  exact ⟨(c6_setup_views
      [{ name := "object_json", callable := true,
         boostConfig := some { view_type := "json", label := "J" },
         params := ["self", "request", "obj"] }]
      boostedGeneratorMethods).1, by decide⟩

/-- C7: every public django_boosted view generator attaches a config
bag in which label is the given label, path_fragment is the custom
fragment or else the handler name with underscores replaced by
hyphens, permission records the given permission (a Python parameter
defaulting to view), requires_object records the resolved flag and
show_in_object_tools is True; calling any generator with its Python
defaults yields permission view and the default fragment. -/
theorem c7_config_bag_invariant :
    (∀ g funcName label pf ro perm,
      (generator_config g funcName label pf ro perm).label = label ∧
      (generator_config g funcName label pf ro perm).path_fragment =
        pf.getD (defaultFragment funcName) ∧
      (generator_config g funcName label pf ro perm).permission = perm ∧
      (generator_config g funcName label pf ro perm).requires_object = ro ∧
      (generator_config g funcName label pf ro perm).show_in_object_tools
        = true) ∧
    (∀ funcName label,
      (json_view_config funcName label).permission = "view" ∧
      (confirm_view_config funcName label).permission = "view" ∧
      (list_view_config funcName label).permission = "view" ∧
      (form_view_config funcName label).permission = "view" ∧
      (adminform_view_config funcName label).permission = "view" ∧
      (message_view_config funcName label).permission = "view" ∧
      (redirect_view_config funcName label).permission = "view" ∧
      (json_view_config funcName label).path_fragment =
        defaultFragment funcName ∧
      (message_view_config funcName label).show_in_object_tools = true) := by
  constructor
  · intro g funcName label pf ro perm
    cases g <;>
      simp [generator_config, json_view_config, confirm_view_config,
        list_view_config, form_view_config, adminform_view_config,
        message_view_config, redirect_view_config, base_generate_config]
  · intro funcName label
    exact ⟨rfl, rfl, rfl, rfl, rfl, rfl, rfl, rfl, rfl⟩

/-- A key absent from a dict is absent from any filtered version. -/
theorem dictGet_filter_of_none (m : List (String × Val))
    (p : String × Val → Bool) (k : String) (h : dictGet m k = none) :
    dictGet (m.filter p) k = none := by
  induction m with
  | nil => rfl
  | cons a t ih =>
    by_cases hk : a.fst = k
    · rw [dictGet, if_pos hk] at h
      exact absurd h (by simp)
    · rw [dictGet, if_neg hk] at h
      rw [List.filter_cons]
      by_cases hp : p a
      · rw [if_pos hp, dictGet, if_neg hk]
        exact ih h
      · rw [if_neg hp]
        exact ih h

/-- C8 counterexample: a GET on a confirm view whose handler returns
None reaches payload.get on None and raises AttributeError instead of
rendering the confirm template, refuting the claim that every GET
renders the confirm template with defaulted message and choices. -/
theorem c8_counterexample :
    confirm_view admAllow "admin_boost/confirm.html" "Reset" false
      (fun _ _ => Payload.nonePayload)
      { isPost := false, action := none, referer := none,
        refererSafe := false } none =
      ⟨ViewResult.pyError "AttributeError", false, true⟩ := by
  decide

/-- C8 amended: on a confirm view whose permission check succeeds, a
POST invokes the handler with confirmed=True exactly when the posted
action is confirm; unless that invocation returns an HttpResponse,
every POST redirects to the referer when it is present and accepted
as safe and to the model changelist otherwise; a GET whose handler
returns a mapping (that does not itself shadow the rendered keys)
renders the confirm template with confirm_message defaulting to the
question Are you sure? and the two choices defaulting to Confirm and
Cancel, while a GET whose handler returns None raises AttributeError
instead of rendering. -/
theorem c8_confirm_view (adm : ModelAdmin) (tn label : String)
    (requiresObject : Bool) (handler : Option Nat → Bool → Payload)
    (req : ConfirmRequest) (oid : Option String) (obj : Option Nat)
    (hok : check_permissions adm (if requiresObject then oid else none) =
      CheckResult.ok obj) :
    ((confirm_view adm tn label requiresObject handler req oid).calledConfirmed
        = true ↔ req.isPost = true ∧ req.action = some "confirm") ∧
    (req.isPost = true → req.action ≠ some "confirm" →
      confirm_view adm tn label requiresObject handler req oid =
        ⟨ViewResult.redirectTo
          (safe_redirect_url req (reverseUrl (changelistRoute adm))),
          false, false⟩) ∧
    (req.isPost = true → req.action = some "confirm" →
      (∀ r, handler (if requiresObject then obj else none) true ≠
        Payload.http r) →
      confirm_view adm tn label requiresObject handler req oid =
        ⟨ViewResult.redirectTo
          (safe_redirect_url req (reverseUrl (changelistRoute adm))),
          true, false⟩) ∧
    (∀ fb, (req.referer = none → safe_redirect_url req fb = fb) ∧
      (∀ rf, req.referer = some rf → req.refererSafe = true →
        safe_redirect_url req fb = rf) ∧
      (∀ rf, req.referer = some rf → req.refererSafe = false →
        safe_redirect_url req fb = fb)) ∧
    (req.isPost = false →
      ∀ m, handler (if requiresObject then obj else none) false =
        Payload.mapping m →
      dictGet m "choices" = none →
      dictGet m "confirm_message" = none →
      dictGet m "confirm_choice" = none →
      dictGet m "cancel_choice" = none →
      ∃ ctx, confirm_view adm tn label requiresObject handler req oid =
          ⟨ViewResult.template tn ctx, false, true⟩ ∧
        dictGet ctx "confirm_message" =
          some ((dictGet m "confirm").getD (Val.s "Are you sure?")) ∧
        dictGet ctx "confirm_choice" = some (Val.s "Confirm") ∧
        dictGet ctx "cancel_choice" = some (Val.s "Cancel")) ∧
    (req.isPost = false →
      handler (if requiresObject then obj else none) false =
        Payload.nonePayload →
      confirm_view adm tn label requiresObject handler req oid =
        ⟨ViewResult.pyError "AttributeError", false, true⟩) := by
  refine ⟨?_, ?_, ?_, ?_, ?_, ?_⟩
  · unfold confirm_view
    rw [hok]
    dsimp only
    by_cases hp : req.isPost
    · by_cases ha : req.action = some "confirm"
      · cases hh : handler (if requiresObject then obj else none) true <;>
          simp [hp, ha, hh]
      · simp [hp, ha]
    · cases hh : handler (if requiresObject then obj else none) false with
      | http r => simp [hp, hh]
      | nonePayload => simp [hp, hh]
      | mapping m =>
        cases hval : (dictGet m "choices").getD
            (Val.strs ["Confirm", "Cancel"]) <;>
          simp [hp, hh, hval]
  · intro hp ha
    unfold confirm_view
    rw [hok]
    dsimp only
    simp [hp, ha]
  · intro hp ha hnr
    unfold confirm_view
    rw [hok]
    dsimp only
    cases hh : handler (if requiresObject then obj else none) true with
    | http r => exact absurd hh (hnr r)
    | nonePayload => simp [hp, ha, hh]
    | mapping m => simp [hp, ha, hh]
  · intro fb
    refine ⟨?_, ?_, ?_⟩
    · intro h
      unfold safe_redirect_url
      rw [h]
    · intro rf h hs
      unfold safe_redirect_url
      rw [h]
      simp [hs]
    · intro rf h hs
      unfold safe_redirect_url
      rw [h]
      simp [hs]
  · intro hp m hm hch hcm hcc hca
    unfold confirm_view
    rw [hok]
    dsimp only
    rw [if_neg (by simp [hp]), hm]
    dsimp only
    rw [hch]
    dsimp only [Option.getD]
    refine ⟨_, rfl, ?_, ?_, ?_⟩
    · by_cases he : m.isEmpty
      · rw [if_pos he]
        rw [dictGet_dictUpdate]
        rfl
      · rw [if_neg he]
        rw [dictGet_dictUpdate]
        rw [dictGet_filter_of_none m _ "confirm_message" hcm]
        rw [Option.none_or]
        rw [dictGet_dictUpdate]
        rfl
    · by_cases he : m.isEmpty
      · rw [if_pos he]
        rw [dictGet_dictUpdate]
        rfl
      · rw [if_neg he]
        rw [dictGet_dictUpdate]
        rw [dictGet_filter_of_none m _ "confirm_choice" hcc]
        rw [Option.none_or]
        rw [dictGet_dictUpdate]
        rfl
    · by_cases he : m.isEmpty
      · rw [if_pos he]
        rw [dictGet_dictUpdate]
        rfl
      · rw [if_neg he]
        rw [dictGet_dictUpdate]
        rw [dictGet_filter_of_none m _ "cancel_choice" hca]
        rw [Option.none_or]
        rw [dictGet_dictUpdate]
        rfl
  · intro hp hn
    unfold confirm_view
    rw [hok]
    dsimp only
    rw [if_neg (by simp [hp]), hn]

/-- Witness for C8: a cancel POST with a safe referer redirects back
to the referer without invoking the handler. -/
theorem c8_confirm_view_witness :
    confirm_view admAllow "confirm.html" "Reset" false
      (fun _ _ => Payload.nonePayload)
      { isPost := true, action := some "cancel", referer := some "/prev/",
        refererSafe := true } none =
      ⟨ViewResult.redirectTo "/prev/", false, false⟩ := by
  have h := (c8_confirm_view admAllow "confirm.html" "Reset" false
    (fun _ _ => Payload.nonePayload)
    { isPost := true, action := some "cancel", referer := some "/prev/",
      refererSafe := true }
    none none (by rfl)).2.1 rfl (by decide)
  rw [h]
  rfl

/-- C9 counterexample: a boost view whose config exists and leaves
show_in_object_tools at its default still contributes no object tool
in django_admin_boost AdminBoostModel.get_boost_object_tools, because
that variant also requires the requires_object key to be true (it
defaults to false); the mixin variant contributes the item the claim
describes. -/
theorem c9_counterexample :
    model_get_boost_object_tools "app" "country" ["my_view"]
      (fun _ => some { label := "L" }) "3" = [] ∧
    mixin_get_boost_object_tools "app" "country" ["my_view"]
      (fun _ => some { label := "L" }) "3" =
      [⟨"L", reverseObjectUrl "app_country_my_view" "3"⟩] := by
  exact ⟨by decide, by decide⟩

/-- C9 amended: AdminBoostMixin.get_boost_object_tools returns, in
boost_views order, one label/url item per view whose config exists
and whose show_in_object_tools key defaults to true, the url being
the reversal of the boost route for the object id;
AdminBoostModel.get_boost_object_tools of django_admin_boost
additionally requires the requires_object key of the config (defaulting to
false) to be true. -/
theorem c9_object_tools (app model : String) (names : List String)
    (getConfig : String → Option ConfigDict) (objectId : String) :
    mixin_get_boost_object_tools app model names getConfig objectId =
      claimObjectTools app model names getConfig objectId ∧
    model_get_boost_object_tools app model names getConfig objectId =
      modelObjectToolsSpec app model names getConfig objectId := by
  constructor
  · unfold mixin_get_boost_object_tools claimObjectTools
    rw [foldl_append_filterMap _ (fun viewName =>
        match getConfig viewName with
        | none => none
        | some cfg =>
          if cfg.show_in_object_tools.getD true then
            some (⟨cfg.label,
              reverseObjectUrl (boostRouteName app model viewName)
                objectId⟩ : ToolItem)
          else none)]
    · rw [List.nil_append]
    · intro acc vn
      cases hc : getConfig vn with
      | none => rfl
      | some cfg =>
        by_cases hs : cfg.show_in_object_tools.getD true <;> simp [hs]
  · unfold model_get_boost_object_tools modelObjectToolsSpec
    rw [foldl_append_filterMap _ (fun viewName =>
        match getConfig viewName with
        | none => none
        | some cfg =>
          if cfg.requires_object.getD false ∧
              cfg.show_in_object_tools.getD true then
            some (⟨cfg.label,
              reverseObjectUrl (boostRouteName app model viewName)
                objectId⟩ : ToolItem)
          else none)]
    · rw [List.nil_append]
    · intro acc vn
      cases hc : getConfig vn with
      | none => rfl
      | some cfg =>
        by_cases hro : cfg.requires_object.getD false <;>
          by_cases hs : cfg.show_in_object_tools.getD true <;>
            simp [hro, hs]
